import Mathlib

/-!
Verification of the scoring/ranking core of `backend/main.py`
(rule-based internship recommender).

The Python functions are embedded shallowly:
dictionaries become structures with `Option`-valued fields (a `none` field
models both an absent key and a JSON `null`), Python floats become `ℚ`,
Python `int` becomes `Int`, and Python truthiness on optional strings is
made explicit (`truthyStr`, `pyOrStr`).  `round(x, 4)` is modelled with
Mathlib's `round` (round-half-up); the spec accepts either half-up or
half-even rounding.
-/

/-- Nested `location` object carried by listings and request payloads
(`main.py` lines 31, 194). -/
structure Loc where
  state : Option String
  district : Option String
  city : Option String
deriving DecidableEq

/-- One internship listing record, restricted to the fields that the
scoring core reads (`main.py`). `none` models an absent key or `null`. -/
structure Item where
  state : Option String
  district : Option String
  city : Option String
  location : Option Loc
  skills : List String
  education_levels : List String
  sector : Option String
  women_empowerment : Option Bool
  gender_empowerment : Option Bool
  stipend : Option Int
deriving DecidableEq

/-- The candidate dictionary assembled in `recommend` (`main.py` lines 196-205). -/
structure Candidate where
  name : Option String
  gender : Option String
  education : Option String
  skills : List String
  sector : Option String
  state : Option String
  district : Option String
  city : Option String
deriving DecidableEq

/-- Request payload for `/recommend` (`main.py` lines 190-205), restricted to
the keys the handler reads.  `skills` uses `[]` for an absent key, matching
`payload.get("skills") or []`. -/
structure Payload where
  name : Option String
  gender : Option String
  education : Option String
  education_level : Option String
  skills : List String
  sector : Option String
  sector_interest : Option String
  state : Option String
  district : Option String
  city : Option String
  location : Option Loc
deriving DecidableEq

/-- Python truthiness of an optional string: `None` and `""` are falsy. -/
def truthyStr : Option String → Bool
  | some s => s ≠ ""
  | none => false

/-- Python `a or b` on optional strings: returns `a` when `a` is truthy
(present and non-empty), otherwise `b`. -/
def pyOrStr (a b : Option String) : Option String :=
  match a with
  | some s => if s = "" then b else some s
  | none => b

/-- Drop leading and trailing whitespace from a character list
(Python `str.strip`). -/
def trimChars (l : List Char) : List Char :=
  ((l.dropWhile Char.isWhitespace).reverse.dropWhile Char.isWhitespace).reverse

/-- Python `s.lower().strip()` on the characters of `s` (kernel-reducible
embedding of the normalization used throughout `main.py`). -/
def lowerTrim (s : String) : String := ⟨trimChars (s.data.map Char.toLower)⟩

/-- Embedding of `_norm_text` (`main.py` lines 26-27): lowercase and strip a
string, `None` for an absent/non-string value. -/
def _norm_text : Option String → Option String
  | some s => some (lowerTrim s)
  | none => none

/-- Embedding of `_to_flat` (`main.py` lines 30-38): pull `state`/`district`/
`city` up from the nested `location` object (Python `or`, so an empty-string
top-level value also falls back), and default `women_empowerment` from the
legacy `gender_empowerment` flag. -/
def _to_flat (item : Item) : Item :=
  let loc := item.location.getD ⟨none, none, none⟩
  { item with
    state := pyOrStr item.state loc.state
    district := pyOrStr item.district loc.district
    city := pyOrStr item.city loc.city
    women_empowerment :=
      match item.women_empowerment with
      | some b => some b
      | none => some (item.gender_empowerment.getD false) }

def LOCATION_WEIGHT : ℚ := 0.25

def SKILL_WEIGHT : ℚ := 0.35

def EDUCATION_WEIGHT : ℚ := 0.20

def SECTOR_WEIGHT : ℚ := 0.20

def BONUS_WOMEN : ℚ := 0.05

def BONUS_STIPEND : ℚ := 0.05

/-- Normalization applied to each skill string inside `jaccard_similarity`
and the overlap reason (`x.lower().strip()`). -/
def norm_skill (x : String) : String := lowerTrim x

/-- Embedding of `jaccard_similarity` (`main.py` lines 74-81) over the
normalized skill sets. -/
def jaccard_similarity (a b : List String) : ℚ :=
  let sa : Finset String := (a.map norm_skill).toFinset
  let sb : Finset String := (b.map norm_skill).toFinset
  if sa = ∅ ∨ sb = ∅ then 0
  else
    let inter := (sa ∩ sb).card
    let unionC := (sa ∪ sb).card
    if unionC ≠ 0 then (inter : ℚ) / (unionC : ℚ) else 0

/-- Embedding of `compute_location_score` (`main.py` lines 84-101): three
independent tiers; a tier scores when the normalized values compare equal and
emits its reason only when the listing's raw value is truthy. -/
def compute_location_score (cand : Candidate) (internship : Item) : ℚ × List String :=
  ((if _norm_text cand.state = _norm_text internship.state then LOCATION_WEIGHT * 0.4 else 0)
      + (if _norm_text cand.district = _norm_text internship.district then
          LOCATION_WEIGHT * 0.35 else 0)
      + (if _norm_text cand.city = _norm_text internship.city then LOCATION_WEIGHT * 0.25 else 0),
    (if _norm_text cand.state = _norm_text internship.state ∧ truthyStr internship.state then
        ["State match: " ++ internship.state.getD ""] else [])
      ++ (if _norm_text cand.district = _norm_text internship.district ∧
            truthyStr internship.district then
          ["District match: " ++ internship.district.getD ""] else [])
      ++ (if _norm_text cand.city = _norm_text internship.city ∧ truthyStr internship.city then
          ["City match: " ++ internship.city.getD ""] else []))

/-- Sorted overlap of the normalized skill sets (`main.py` lines 114-117):
`sorted(set(...) & set(...))`, ascending lexicographic order. -/
def skills_overlap (cand : Candidate) (internship : Item) : List String :=
  List.insertionSort (fun x y : String => x ≤ y)
    ((cand.skills.map norm_skill).dedup.filter
      (fun x => decide (x ∈ internship.skills.map norm_skill)))

/-- Skills reason emitted by `score_item` (`main.py` lines 113-119): only when
the skill score is positive and the overlap is non-empty. -/
def skills_reason (cand : Candidate) (internship : Item) : List String :=
  if jaccard_similarity cand.skills internship.skills * SKILL_WEIGHT > 0 then
    if skills_overlap cand internship ≠ [] then
      ["Skills overlap: " ++ String.intercalate ", " (skills_overlap cand internship)]
    else []
  else []

/-- Education test of `score_item` (`main.py` lines 122-123): normalized
candidate education is truthy and matches some entry of `education_levels`. -/
def education_hit (cand : Candidate) (internship : Item) : Bool :=
  truthyStr (_norm_text cand.education) &&
    internship.education_levels.any
      (fun level => decide (_norm_text (some level) = _norm_text cand.education))

/-- Education reason of `score_item` (`main.py` line 125). -/
def education_reason (cand : Candidate) (internship : Item) : List String :=
  if education_hit cand internship then ["Education fits: " ++ cand.education.getD ""] else []

/-- Sector reason of `score_item` (`main.py` lines 127-130): emitted when the
normalized sectors compare equal and the listing's sector is truthy. -/
def sector_reason (cand : Candidate) (internship : Item) : List String :=
  if _norm_text cand.sector = _norm_text internship.sector ∧ truthyStr internship.sector then
    ["Sector preference: " ++ internship.sector.getD ""] else []

/-- Women-empowerment bonus reason of `score_item` (`main.py` lines 132-134). -/
def women_reason (internship : Item) : List String :=
  if internship.women_empowerment.getD false then ["Supports women empowerment"] else []

/-- Printed form of the raw stipend value in the stipend reason f-string. -/
def stipendStr : Option Int → String
  | some n => toString n
  | none => "None"

/-- Stipend bonus reason of `score_item` (`main.py` lines 136-138). -/
def stipend_reason (internship : Item) : List String :=
  if internship.stipend.getD 0 ≥ 8000 then
    ["Stipend ≥ ₹8000 (₹" ++ stipendStr internship.stipend ++ ")"] else []

/-- Modelling of Python `round(total, 4)`; round-half-up on `ℚ`
(the spec accepts half-up or half-even). -/
def round4 (x : ℚ) : ℚ := (round (x * 10000) : ℚ) / 10000

/-- Result dictionary returned by `score_item` (`main.py` lines 140-144). -/
structure ScoredResult where
  score : ℚ
  internship : Item
  why : List String
deriving DecidableEq

/-- Embedding of `score_item` (`main.py` lines 104-144): weighted total over
location, skills, education, sector plus the two bonuses, with reasons
accumulated in that same order. -/
def score_item (cand : Candidate) (internship : Item) : ScoredResult :=
  { score := round4 ((compute_location_score cand internship).1
      + jaccard_similarity cand.skills internship.skills * SKILL_WEIGHT
      + (if education_hit cand internship then EDUCATION_WEIGHT else 0)
      + (if _norm_text cand.sector = _norm_text internship.sector then SECTOR_WEIGHT else 0)
      + (if internship.women_empowerment.getD false then BONUS_WOMEN else 0)
      + (if internship.stipend.getD 0 ≥ 8000 then BONUS_STIPEND else 0))
    internship := internship
    why := (compute_location_score cand internship).2
      ++ skills_reason cand internship
      ++ education_reason cand internship
      ++ sector_reason cand internship
      ++ women_reason internship
      ++ stipend_reason internship }

/-- Comparator used by `scored.sort(key=..., reverse=True)`: `a` may come
before `b` exactly when `a`'s score is at least `b`'s. -/
def scoreLE (a b : ScoredResult) : Bool := decide (b.score ≤ a.score)

/-- The Ranker (`main.py` lines 207-211): score every listing, stable-sort
descending by score, truncate to `max 1 top_k`. -/
def rank (cand : Candidate) (internships : List Item) (top_k : Int) : List ScoredResult :=
  ((internships.map (score_item cand)).mergeSort scoreLE).take (max 1 top_k).toNat

/-- Candidate record assembled from the request payload
(`main.py` lines 194-205), Python `or` fallbacks included. -/
def candidate_of_payload (payload : Payload) : Candidate :=
  let location := payload.location.getD ⟨none, none, none⟩
  { name := payload.name
    gender := payload.gender
    education := pyOrStr payload.education payload.education_level
    skills := payload.skills
    sector := pyOrStr payload.sector payload.sector_interest
    state := pyOrStr payload.state location.state
    district := pyOrStr payload.district location.district
    city := pyOrStr payload.city location.city }

/-- Embedding of the `recommend` handler (`main.py` lines 189-211): error on
an empty catalog, otherwise rank. -/
def recommend (payload : Payload) (internships : List Item) (top_k : Int) :
    Except String (List ScoredResult) :=
  if internships = [] then Except.error "Internships data not loaded"
  else Except.ok (rank (candidate_of_payload payload) internships top_k)

/-! ### Concrete records used in scenario theorems, counterexamples and witnesses -/

/-- The sample persona from §8 of the spec (candidate side of the C8 scenario). -/
def priya : Candidate :=
  { name := some "Priya Sharma", gender := some "female", education := some "B.Tech",
    skills := ["React", "CSS"], sector := some "Technology",
    state := some "Maharashtra", district := some "Pune", city := some "Pune" }

/-- The listing of the C8 scenario. -/
def listing8 : Item :=
  { state := some "Maharashtra", district := some "Pune", city := some "Pune",
    location := none, skills := ["React", "TypeScript"], education_levels := ["B.Tech"],
    sector := some "Technology", women_empowerment := some true,
    gender_empowerment := none, stipend := some 10000 }

/-- A candidate with every scored field absent. -/
def candAbsent : Candidate :=
  { name := none, gender := none, education := none, skills := [],
    sector := none, state := none, district := none, city := none }

/-- A listing with every scored field absent. -/
def itemAbsent : Item :=
  { state := none, district := none, city := none, location := none,
    skills := [], education_levels := [], sector := none,
    women_empowerment := none, gender_empowerment := none, stipend := none }

/-- A listing whose top-level `state` is present but empty, while the nested
location carries a state. -/
def itemEmptyFlatState : Item :=
  { state := some "", district := none, city := none,
    location := some { state := some "Goa", district := none, city := none },
    skills := [], education_levels := [], sector := none,
    women_empowerment := none, gender_empowerment := none, stipend := none }

/-- A listing with a truthy top-level state and a different nested state. -/
def itemBothStates : Item :=
  { state := some "Maharashtra", district := none, city := none,
    location := some { state := some "Goa", district := none, city := none },
    skills := [], education_levels := [], sector := none,
    women_empowerment := none, gender_empowerment := none, stipend := none }

/-- A payload with flat and nested locations for the precedence witness. -/
def payloadBoth : Payload :=
  { name := none, gender := none, education := none, education_level := none,
    skills := [], sector := none, sector_interest := none,
    state := some "Maharashtra", district := none, city := none,
    location := some { state := some "Goa", district := some "Pune", city := none } }

/-- The persona request payload (flat location fields only). -/
def payloadPriya : Payload :=
  { name := some "Priya Sharma", gender := some "female", education := some "B.Tech",
    education_level := none, skills := ["React", "TypeScript", "CSS", "Communication"],
    sector := some "Technology", sector_interest := none,
    state := some "Maharashtra", district := some "Pune", city := some "Pune",
    location := none }

/-! ### Helper lemmas -/

/-- The Python `or` fallback is idempotent when re-applied with the same
second operand. -/
theorem pyOrStr_idem (a b : Option String) : pyOrStr (pyOrStr a b) b = pyOrStr a b := by
  cases a with
  | none =>
    cases b with
    | none => rfl
    | some t =>
      simp only [pyOrStr]
      split <;> simp_all
  | some s =>
    by_cases hs : s = "" <;> cases b <;> simp_all [pyOrStr]

/-- A truthy (present, non-empty) first operand wins in `pyOrStr`. -/
theorem pyOrStr_of_truthy {s : String} (b : Option String) (h : s ≠ "") :
    pyOrStr (some s) b = some s := by
  simp [pyOrStr, h]

/-- An absent first operand falls back in `pyOrStr`. -/
theorem pyOrStr_none (b : Option String) : pyOrStr none b = b := rfl

/-- Evaluation rule for `round4` at a value whose half-up rounding is `n`. -/
theorem round4_eval (x : ℚ) (n : ℤ) (h1 : (n : ℚ) ≤ x * 10000 + 1/2)
    (h2 : x * 10000 + 1/2 < n + 1) : round4 x = (n : ℚ) / 10000 := by
  unfold round4
  rw [round_eq, Int.floor_eq_iff.mpr ⟨h1, h2⟩]

/-- A total in `[0, 11/10]` stays in `[0, 11/10]` after 4-decimal rounding. -/
theorem round4_bounds {t : ℚ} (h0 : 0 ≤ t) (h1 : t ≤ 11/10) :
    0 ≤ round4 t ∧ round4 t ≤ 11/10 := by
  have hfl : (0 : ℤ) ≤ ⌊t * 10000 + 1/2⌋ := Int.le_floor.mpr (by push_cast; linarith)
  have hfu : ⌊t * 10000 + 1/2⌋ ≤ 11000 := by
    have : ⌊t * 10000 + 1/2⌋ ≤ ⌊(11000 : ℚ) + 1/2⌋ := Int.floor_le_floor (by linarith)
    calc ⌊t * 10000 + 1/2⌋ ≤ ⌊(11000 : ℚ) + 1/2⌋ := this
    _ = 11000 := by rw [Int.floor_eq_iff]; norm_num
  constructor
  · unfold round4
    rw [round_eq]
    positivity
  · unfold round4
    rw [round_eq]
    have : (⌊t * 10000 + 1/2⌋ : ℚ) ≤ 11000 := by exact_mod_cast hfu
    linarith

/-- The Jaccard similarity is non-negative. -/
theorem jaccard_similarity_nonneg (a b : List String) : 0 ≤ jaccard_similarity a b := by
  unfold jaccard_similarity
  dsimp only
  split
  · exact le_refl 0
  · split
    · positivity
    · exact le_refl 0

/-- The Jaccard similarity is at most one. -/
theorem jaccard_similarity_le_one (a b : List String) : jaccard_similarity a b ≤ 1 := by
  unfold jaccard_similarity
  dsimp only
  split
  · norm_num
  · split
    · rename_i hne hu
      rw [div_le_one (by exact_mod_cast Nat.pos_of_ne_zero hu)]
      exact_mod_cast Finset.card_le_card Finset.inter_subset_union
    · norm_num

/-- The location matcher's score lies in `[0, LOCATION_WEIGHT]`. -/
theorem compute_location_score_bounds (cand : Candidate) (internship : Item) :
    0 ≤ (compute_location_score cand internship).1 ∧
      (compute_location_score cand internship).1 ≤ LOCATION_WEIGHT := by
  unfold compute_location_score
  dsimp only
  split_ifs <;> norm_num [LOCATION_WEIGHT]

/-- The sort comparator is transitive. -/
theorem scoreLE_trans : ∀ (a b c : ScoredResult), scoreLE a b → scoreLE b c → scoreLE a c := by
  intro a b c hab hbc
  simp only [scoreLE, decide_eq_true_eq] at *
  exact le_trans hbc hab

/-- The sort comparator is total. -/
theorem scoreLE_total : ∀ (a b : ScoredResult), scoreLE a b || scoreLE b a := by
  intro a b
  simp only [scoreLE, Bool.or_eq_true, decide_eq_true_eq]
  exact le_total b.score a.score

/-! ### Claim theorems -/

/-- C3: for every candidate and listing, the score produced by the scorer
satisfies `0 ≤ score ≤ 1.10` (weights 0.25 + 0.35 + 0.20 + 0.20 plus two
0.05 bonuses; not normalized to 1.0). -/
theorem score_item_score_bounds (cand : Candidate) (internship : Item) :
    0 ≤ (score_item cand internship).score ∧ (score_item cand internship).score ≤ 11/10 := by
  have hL := compute_location_score_bounds cand internship
  have hJ0 := jaccard_similarity_nonneg cand.skills internship.skills
  have hJ1 := jaccard_similarity_le_one cand.skills internship.skills
  have hsw : (0 : ℚ) ≤ SKILL_WEIGHT := by norm_num [SKILL_WEIGHT]
  have hJw0 : 0 ≤ jaccard_similarity cand.skills internship.skills * SKILL_WEIGHT :=
    mul_nonneg hJ0 hsw
  have hJw1 : jaccard_similarity cand.skills internship.skills * SKILL_WEIGHT ≤ 7/20 := by
    calc jaccard_similarity cand.skills internship.skills * SKILL_WEIGHT
        ≤ 1 * SKILL_WEIGHT := mul_le_mul_of_nonneg_right hJ1 hsw
    _ = 7/20 := by norm_num [SKILL_WEIGHT]
  rw [LOCATION_WEIGHT] at hL
  unfold score_item
  dsimp only
  refine round4_bounds ?_ ?_ <;>
    split_ifs <;>
      norm_num [EDUCATION_WEIGHT, SECTOR_WEIGHT, BONUS_WOMEN, BONUS_STIPEND] <;>
      linarith [hL.1, hL.2]

/-- C4: for every candidate, catalog and positive `top_k`, the Ranker returns
exactly `min top_k (number of listings)` results, pairwise sorted descending
by score. -/
theorem rank_length_and_sorted (cand : Candidate) (internships : List Item) (top_k : Int)
    (h : 1 ≤ top_k) :
    (rank cand internships top_k).length = min top_k.toNat internships.length ∧
      (rank cand internships top_k).Pairwise (fun a b => b.score ≤ a.score) := by
  constructor
  · unfold rank
    rw [List.length_take, List.length_mergeSort, List.length_map, max_eq_right h]
  · have hs := List.sorted_mergeSort scoreLE_trans scoreLE_total (internships.map (score_item cand))
    have ht : List.Sublist (rank cand internships top_k)
        ((internships.map (score_item cand)).mergeSort scoreLE) := List.take_sublist _ _
    exact (List.Pairwise.sublist ht hs).imp (fun hab => by simpa [scoreLE] using hab)

/-- Witness for C4 at the persona, a one-listing catalog and `top_k = 1`. -/
theorem rank_length_and_sorted_witness :
    (1 : Int) ≤ 1 ∧
      ((rank priya [listing8] 1).length = min (1 : Int).toNat [listing8].length ∧
        (rank priya [listing8] 1).Pairwise (fun a b => b.score ≤ a.score)) :=
  ⟨le_refl 1, rank_length_and_sorted priya [listing8] 1 (le_refl 1)⟩

/-- C5: ranking is deterministic (same inputs, same output), and listings with
equal scores appear in the sorted list in their original catalog order
(stable tie-break): filtering the stable descending sort to any fixed score
value gives exactly the filter of the unsorted scored catalog. -/
theorem rank_deterministic_and_stable (cand : Candidate) (internships : List Item)
    (top_k : Int) (q : ℚ) :
    rank cand internships top_k = rank cand internships top_k ∧
      ((internships.map (score_item cand)).mergeSort scoreLE).filter
          (fun r => decide (r.score = q)) =
        (internships.map (score_item cand)).filter (fun r => decide (r.score = q)) := by
  refine ⟨rfl, ?_⟩
  set scored := internships.map (score_item cand) with hscored
  set p : ScoredResult → Bool := fun r => decide (r.score = q) with hp
  have hallq : ∀ r ∈ scored.filter p, r.score = q := by
    intro r hr
    have := List.of_mem_filter hr
    simpa [hp] using this
  have hpw : (scored.filter p).Pairwise (fun a b => scoreLE a b = true) := by
    apply List.pairwise_of_forall_mem_list
    intro a ha b hb
    simp only [scoreLE, decide_eq_true_eq]
    rw [hallq a ha, hallq b hb]
  have hsub : List.Sublist (scored.filter p) (scored.mergeSort scoreLE) :=
    List.sublist_mergeSort scoreLE_trans scoreLE_total hpw (List.filter_sublist scored)
  have hsame : (scored.filter p).filter p = scored.filter p :=
    List.filter_eq_self.mpr (fun a ha => List.of_mem_filter ha)
  have hsub2 : List.Sublist (scored.filter p) ((scored.mergeSort scoreLE).filter p) := by
    have h2 := hsub.filter p
    rwa [hsame] at h2
  have hperm : List.Perm ((scored.mergeSort scoreLE).filter p) (scored.filter p) :=
    (List.mergeSort_perm scored scoreLE).filter p
  exact (hsub2.eq_of_length hperm.length_eq.symm).symm

/-- C7: if either normalized skill set is empty, the skill contribution is
exactly 0 (no NaN, no division error: the function is total on `ℚ`) and no
skills reason is emitted. -/
theorem empty_skills_contribution (cand : Candidate) (internship : Item)
    (h : (cand.skills.map norm_skill).toFinset = ∅ ∨
      (internship.skills.map norm_skill).toFinset = ∅) :
    jaccard_similarity cand.skills internship.skills * SKILL_WEIGHT = 0 ∧
      skills_reason cand internship = [] := by
  have hj : jaccard_similarity cand.skills internship.skills = 0 := by
    unfold jaccard_similarity
    dsimp only
    rw [if_pos h]
  constructor
  · rw [hj, zero_mul]
  · unfold skills_reason
    rw [if_neg (by rw [hj, zero_mul]; exact lt_irrefl 0)]

/-- Witness for C7: the all-absent candidate (no skills) against the scenario
listing. -/
theorem empty_skills_contribution_witness :
    ((candAbsent.skills.map norm_skill).toFinset = ∅ ∨
        (listing8.skills.map norm_skill).toFinset = ∅) ∧
      (jaccard_similarity candAbsent.skills listing8.skills * SKILL_WEIGHT = 0 ∧
        skills_reason candAbsent listing8 = []) :=
  ⟨Or.inl (by decide), empty_skills_contribution candAbsent listing8 (Or.inl (by decide))⟩

/-- C9: the reason list of a scored result is the location reasons, then the
skills-overlap reason, then the education reason, then the sector reason,
then the women-empowerment bonus reason, then the stipend bonus reason, in
that fixed order. -/
theorem why_category_order (cand : Candidate) (internship : Item) :
    (score_item cand internship).why =
      (compute_location_score cand internship).2 ++ skills_reason cand internship
        ++ education_reason cand internship ++ sector_reason cand internship
        ++ women_reason internship ++ stipend_reason internship := rfl

/-- C10: flattening a listing record is idempotent, and deriving the location
fields is total: when both the top-level and the nested value are absent the
derived field is simply absent (no error). -/
theorem to_flat_idem_and_total (item : Item) :
    _to_flat (_to_flat item) = _to_flat item ∧
      (item.state = none → (item.location.getD ⟨none, none, none⟩).state = none →
        (_to_flat item).state = none) ∧
      (item.district = none → (item.location.getD ⟨none, none, none⟩).district = none →
        (_to_flat item).district = none) ∧
      (item.city = none → (item.location.getD ⟨none, none, none⟩).city = none →
        (_to_flat item).city = none) := by
  obtain ⟨st, di, ci, lo, sk, el, se, we, ge, sp⟩ := item
  refine ⟨?_, ?_, ?_, ?_⟩
  · cases we <;> simp [_to_flat, pyOrStr_idem]
  · intro h1 h2
    simp_all [_to_flat, pyOrStr]
  · intro h1 h2
    simp_all [_to_flat, pyOrStr]
  · intro h1 h2
    simp_all [_to_flat, pyOrStr]

/-- Witness for C10 at the all-absent listing. -/
theorem to_flat_idem_and_total_witness :
    _to_flat (_to_flat itemAbsent) = _to_flat itemAbsent ∧ (_to_flat itemAbsent).state = none := by
  have h := to_flat_idem_and_total itemAbsent
  exact ⟨h.1, h.2.1 rfl rfl⟩

/-- C1: refuted by the code — when a location field (here all three tiers)
and the sector are absent on both sides, the matchers still add their full
weights, because normalized-absent compares equal to normalized-absent
(`None == None`), though no reasons are emitted.  At the all-absent pair the
location matcher contributes the full `LOCATION_WEIGHT` and the total score
is 0.45 (location 0.25 plus sector 0.20), where the claim requires 0. -/
theorem absent_fields_spurious_score :
    (compute_location_score candAbsent itemAbsent).1 = LOCATION_WEIGHT ∧
      (compute_location_score candAbsent itemAbsent).2 = [] ∧
      (score_item candAbsent itemAbsent).score = 0.45 := by
  have hL : (compute_location_score candAbsent itemAbsent).1 = LOCATION_WEIGHT := by
    unfold compute_location_score
    dsimp only
    rw [if_pos (by decide), if_pos (by decide), if_pos (by decide)]
    norm_num [LOCATION_WEIGHT]
  have hj : jaccard_similarity candAbsent.skills itemAbsent.skills = 0 := by
    unfold jaccard_similarity
    dsimp only
    rw [if_pos (by decide)]
  refine ⟨hL, by decide, ?_⟩
  unfold score_item
  dsimp only
  rw [hL, hj, zero_mul]
  rw [if_neg (by decide), if_pos (by decide), if_neg (by decide), if_neg (by decide)]
  rw [round4_eval _ 4500 (by norm_num [LOCATION_WEIGHT, SECTOR_WEIGHT])
    (by norm_num [LOCATION_WEIGHT, SECTOR_WEIGHT])]
  norm_num

/-- C2: refuted by the code — a `top_k` of 0 is silently clamped to 1 by
`max(1, int(top_k))`, not rejected as a client-input error: `recommend`
succeeds and returns one result on a one-listing catalog. -/
theorem topk_zero_clamped :
    recommend payloadPriya [listing8] 0 =
      Except.ok [score_item (candidate_of_payload payloadPriya) listing8] := by
  unfold recommend rank
  rw [if_neg (by decide)]
  simp

/-- C6 counterexample: a top-level `state` that is present but empty is not
taken; the nested location's value wins, refuting "the flat/top-level value
takes precedence whenever both are present". -/
theorem flat_precedence_refuted :
    itemEmptyFlatState.state = some "" ∧
      itemEmptyFlatState.location =
        some { state := some "Goa", district := none, city := none } ∧
      (_to_flat itemEmptyFlatState).state = some "Goa" := by
  refine ⟨rfl, rfl, ?_⟩
  decide

/-- C6 (amended): a flat/top-level location field takes precedence whenever
it is present and non-empty (truthy); when it is absent the nested value is
used — both for listings at flattening time and for the candidate assembled
from a request payload.  (A present-but-empty flat string falls back to the
nested value; see the counterexample.) -/
theorem flat_location_precedence (item : Item) (payload : Payload) :
    (∀ s : String, item.state = some s → s ≠ "" → (_to_flat item).state = some s) ∧
      (item.state = none →
        (_to_flat item).state = (item.location.getD ⟨none, none, none⟩).state) ∧
      (∀ s : String, item.district = some s → s ≠ "" → (_to_flat item).district = some s) ∧
      (item.district = none →
        (_to_flat item).district = (item.location.getD ⟨none, none, none⟩).district) ∧
      (∀ s : String, item.city = some s → s ≠ "" → (_to_flat item).city = some s) ∧
      (item.city = none →
        (_to_flat item).city = (item.location.getD ⟨none, none, none⟩).city) ∧
      (∀ s : String, payload.state = some s → s ≠ "" →
        (candidate_of_payload payload).state = some s) ∧
      (payload.state = none → (candidate_of_payload payload).state =
        (payload.location.getD ⟨none, none, none⟩).state) ∧
      (∀ s : String, payload.district = some s → s ≠ "" →
        (candidate_of_payload payload).district = some s) ∧
      (payload.district = none → (candidate_of_payload payload).district =
        (payload.location.getD ⟨none, none, none⟩).district) ∧
      (∀ s : String, payload.city = some s → s ≠ "" →
        (candidate_of_payload payload).city = some s) ∧
      (payload.city = none → (candidate_of_payload payload).city =
        (payload.location.getD ⟨none, none, none⟩).city) := by
  refine ⟨?_, ?_, ?_, ?_, ?_, ?_, ?_, ?_, ?_, ?_, ?_, ?_⟩ <;>
    first
      | (intro s hs hne
         simp [_to_flat, candidate_of_payload, hs, pyOrStr_of_truthy _ hne])
      | (intro h
         simp [_to_flat, candidate_of_payload, h, pyOrStr_none])

/-- Witness for C6 (amended): truthy flat state wins over a nested state;
an absent flat district falls back to the nested district. -/
theorem flat_location_precedence_witness :
    (_to_flat itemBothStates).state = some "Maharashtra" ∧
      (candidate_of_payload payloadBoth).district = some "Pune" := by
  obtain ⟨i1, i2, i3, i4, i5, i6, p1, p2, p3, p4, p5, p6⟩ :=
    flat_location_precedence itemBothStates payloadBoth
  refine ⟨i1 "Maharashtra" rfl (by decide), ?_⟩
  have h10 := p4 rfl
  simpa [payloadBoth] using h10

/-- C8: the spec's worked scenario — the persona against the technology
listing — gives location 0.25, skills (1/3)·0.35, the full education and
sector weights, both 0.05 bonuses, a rounded final score of 0.8667, and the
eight reasons in category order. -/
theorem scenario_priya_scoring :
    (compute_location_score priya listing8).1 = 0.25 ∧
      jaccard_similarity priya.skills listing8.skills * SKILL_WEIGHT = 1/3 * SKILL_WEIGHT ∧
      education_hit priya listing8 = true ∧
      _norm_text priya.sector = _norm_text listing8.sector ∧
      listing8.women_empowerment.getD false = true ∧
      listing8.stipend.getD 0 ≥ 8000 ∧
      (score_item priya listing8).score = 0.8667 ∧
      (score_item priya listing8).why =
        ["State match: Maharashtra", "District match: Pune", "City match: Pune",
          "Skills overlap: react", "Education fits: B.Tech",
          "Sector preference: Technology", "Supports women empowerment",
          "Stipend ≥ ₹8000 (₹10000)"] := by
  have hj : jaccard_similarity priya.skills listing8.skills = 1/3 := by
    show jaccard_similarity ["React", "CSS"] ["React", "TypeScript"] = 1/3
    simp only [jaccard_similarity]
    rw [if_neg (by decide)]
    rw [if_pos (by decide)]
    rw [show ((["React", "CSS"].map norm_skill).toFinset ∩
        (["React", "TypeScript"].map norm_skill).toFinset).card = 1 from by decide]
    rw [show ((["React", "CSS"].map norm_skill).toFinset ∪
        (["React", "TypeScript"].map norm_skill).toFinset).card = 3 from by decide]
    norm_num
  have hL : (compute_location_score priya listing8).1 = 0.25 := by
    unfold compute_location_score
    dsimp only
    rw [if_pos (by decide), if_pos (by decide), if_pos (by decide)]
    norm_num [LOCATION_WEIGHT]
  have hov : skills_overlap priya listing8 = ["react"] := by decide
  have hsr : skills_reason priya listing8 = ["Skills overlap: react"] := by
    unfold skills_reason
    rw [hj]
    rw [if_pos (by norm_num [SKILL_WEIGHT])]
    rw [hov]
    rw [if_pos (by decide)]
    rfl
  have hscore : (score_item priya listing8).score = 0.8667 := by
    unfold score_item
    dsimp only
    rw [hL, hj]
    rw [if_pos (by decide), if_pos (by decide), if_pos (by decide), if_pos (by decide)]
    rw [round4_eval _ 8667
      (by norm_num [SKILL_WEIGHT, EDUCATION_WEIGHT, SECTOR_WEIGHT, BONUS_WOMEN, BONUS_STIPEND])
      (by norm_num [SKILL_WEIGHT, EDUCATION_WEIGHT, SECTOR_WEIGHT, BONUS_WOMEN, BONUS_STIPEND])]
    norm_num
  have hwhy : (score_item priya listing8).why =
      ["State match: Maharashtra", "District match: Pune", "City match: Pune",
        "Skills overlap: react", "Education fits: B.Tech",
        "Sector preference: Technology", "Supports women empowerment",
        "Stipend ≥ ₹8000 (₹10000)"] := by
    show (compute_location_score priya listing8).2 ++ skills_reason priya listing8
        ++ education_reason priya listing8 ++ sector_reason priya listing8
        ++ women_reason listing8 ++ stipend_reason listing8 = _
    rw [hsr]
    rw [show (compute_location_score priya listing8).2 =
      ["State match: Maharashtra", "District match: Pune", "City match: Pune"] from by decide]
    rw [show education_reason priya listing8 = ["Education fits: B.Tech"] from by decide]
    rw [show sector_reason priya listing8 = ["Sector preference: Technology"] from by decide]
    rw [show women_reason listing8 = ["Supports women empowerment"] from by decide]
    rw [show stipend_reason listing8 = ["Stipend ≥ ₹8000 (₹10000)"] from by decide]
    rfl
  exact ⟨hL, by rw [hj], by decide, by decide, by decide, by decide, hscore, hwhy⟩

